import Mathlib

/-!
Shallow embedding of the autokeras data-pipeline core:
`autokeras/keras_layers.py` (MultiCategoryEncoding,
TextVectorizationWithTokenizer) and `autokeras/nodes.py` (Input nodes).

Strings are Lean `String`s; tensors of strings are lists of rows;
float32 values are modelled by `FVal` (exact rationals plus NaN and
infinities), with TensorFlow ops (`tf.strings.to_number`, `tf.split`,
`tf.where`/`is_nan`, row-wise concatenation) modelled as executable
functions returning `Option` where the op can raise.
-/

/-- Encoding tag constant `INT = "int"` from keras_layers.py. -/
def INT : String := "int"

/-- Encoding tag constant `NONE = "none"` from keras_layers.py. -/
def NONE : String := "none"

/-- Encoding tag constant `ONE_HOT = "one-hot"` from keras_layers.py. -/
def ONE_HOT : String := "one-hot"

/-- A float32 value as produced by `tf.strings.to_number`: an exact
numeric value, NaN, or a signed infinity. -/
inductive FVal where
  | num (q : ℚ)
  | nan
  | inf (neg : Bool)
deriving DecidableEq, Repr

/-- Split a list of characters on a separator character, mirroring
Python / TensorFlow single-character string splitting: `splitOnChar c s`
returns the (possibly empty) chunks between occurrences of `c`. -/
def splitOnChar (sep : Char) : List Char → List (List Char)
  | [] => [[]]
  | c :: rest =>
    let r := splitOnChar sep rest
    if c = sep then [] :: r
    else
      match r with
      | [] => [[c]]
      | h :: t => (c :: h) :: t

/-- Numeric value of a list of decimal digit characters. -/
def digitsVal (cs : List Char) : Nat :=
  cs.foldl (fun a c => a * 10 + (c.toNat - 48)) 0

/-- Parse the mantissa part of a decimal literal (`"12"`, `"1.5"`,
`".5"`, `"1."`): digits with at most one decimal point, at least one
digit overall. The value is returned as a numerator/denominator pair
(the denominator a power of ten). -/
def parseMantissa (cs : List Char) : Option (Nat × Nat) :=
  match splitOnChar (Char.ofNat 46) cs with
  | [a] =>
      if a.length > 0 && a.all Char.isDigit then some (digitsVal a, 1)
      else none
  | [a, b] =>
      if (a.length > 0 || b.length > 0) && a.all Char.isDigit
          && b.all Char.isDigit then
        some (digitsVal a * 10 ^ b.length + digitsVal b, 10 ^ b.length)
      else none
  | _ => none

/-- Parse an optionally signed decimal exponent. -/
def parseExp (cs : List Char) : Option Int :=
  match cs with
  | c :: rest =>
      if c = Char.ofNat 45 then
        if rest.length > 0 && rest.all Char.isDigit then
          some (-(digitsVal rest : Int))
        else none
      else if c = Char.ofNat 43 then
        if rest.length > 0 && rest.all Char.isDigit then
          some ((digitsVal rest : Int))
        else none
      else
        if cs.length > 0 && cs.all Char.isDigit then
          some ((digitsVal cs : Int))
        else none
  | [] => none

/-- Model of `tf.strings.to_number(x, tf.float32)` on one string: an
optional sign, then `nan`, `inf`/`infinity` (case-insensitive), or a
decimal literal with optional exponent. A string that parses as none of
these makes the op raise `InvalidArgumentError`, modelled as `none`. -/
def toNumber (s : String) : Option FVal :=
  let cs := s.data.map Char.toLower
  let signed : Bool × List Char :=
    match cs with
    | c :: rest =>
        if c = Char.ofNat 45 then (true, rest)
        else if c = Char.ofNat 43 then (false, rest)
        else (false, cs)
    | [] => (false, cs)
  let neg := signed.1
  let body := signed.2
  if body = "nan".data then some FVal.nan
  else if body = "inf".data ∨ body = "infinity".data then
    some (FVal.inf neg)
  else
    let p? : Option (Nat × Nat) :=
      match splitOnChar (Char.ofNat 101) body with
      | [m] => parseMantissa m
      | [m, ex] =>
          (parseMantissa m).bind fun p =>
            (parseExp ex).map fun z =>
              if 0 ≤ z then (p.1 * 10 ^ z.toNat, p.2)
              else (p.1, p.2 * 10 ^ z.natAbs)
      | _ => none
    p?.map fun p =>
      FVal.num (mkRat (if neg then -(p.1 : Int) else (p.1 : Int)) p.2)

/-- Model of `tf.where(tf.math.is_nan(number), tf.zeros_like(number),
number)` on one element: NaN is replaced by 0, all else kept. -/
def impute (v : FVal) : FVal :=
  match v with
  | FVal.nan => FVal.num 0
  | v => v

/-- Model of `tf.keras.layers.experimental.preprocessing.StringLookup`:
a fitted vocabulary. Index 0 is reserved for the mask token and index 1
for out-of-vocabulary values (the layer's defaults), so vocabulary
entries map to indices starting at 2. -/
structure StringLookup where
  vocab : List String
deriving DecidableEq, Repr

/-- Lookup of one string through a fitted `StringLookup` layer: known
values map to their vocabulary index shifted past the reserved mask and
OOV slots, unknown values map to the reserved OOV index 1. -/
def StringLookup.lookup (sl : StringLookup) (s : String) : Nat :=
  match sl.vocab.indexOf? s with
  | some i => i + 2
  | none => 1

/-- The `MultiCategoryEncoding` layer state: the encoding-tag list and
the per-column encoding layers built from it (`None` modelled as
`Option.none`). -/
structure MultiCategoryEncoding where
  encoding : List String
  encoding_layers : List (Option StringLookup)
deriving DecidableEq, Repr

/-- The loop body of `MultiCategoryEncoding.__init__`: for each tag,
`none` appends `None`, `int` appends a fresh `StringLookup()`, `one-hot`
appends `None`; any other tag appends nothing. -/
def initEncodingLayers (encoding : List String) : List (Option StringLookup) :=
  encoding.foldr
    (fun e acc =>
      if e = NONE then none :: acc
      else if e = INT then some (StringLookup.mk []) :: acc
      else if e = ONE_HOT then none :: acc
      else acc)
    []

/-- `MultiCategoryEncoding.__init__(encoding)`: stores the tag list and
builds the per-column layer list. -/
def MultiCategoryEncoding.init (encoding : List String) : MultiCategoryEncoding :=
  MultiCategoryEncoding.mk encoding (initEncodingLayers encoding)

/-- Model of `tf.split(input_nodes, [1] * len(encoding), axis=-1)` on a
batch of rows: succeeds only when every row has exactly `n` entries (the
op raises otherwise), and returns the `n` single-column slices. -/
def tfSplitColumns (inputs : List (List String)) (n : Nat) :
    Option (List (List String)) :=
  if inputs.all (fun r => r.length == n) then
    some ((List.range n).map fun j => inputs.map fun r => r.getD j "")
  else none

/-- One column through its encoding layer, as in the loop body of
`MultiCategoryEncoding.call`: a `None` layer parses every value with
`tf.strings.to_number` (failing the whole op on any malformed value)
and imputes NaN to 0; a `StringLookup` layer maps every value through
the vocabulary (cast to float). -/
def encodeColumn (layer : Option StringLookup) (col : List String) :
    Option (List FVal) :=
  match layer with
  | none => (col.mapM toNumber).map fun xs => xs.map impute
  | some sl => some (col.map fun s => FVal.num (mkRat (sl.lookup s) 1))

/-- Row-wise concatenation of single-column outputs, as in the tail of
`MultiCategoryEncoding.call`: a single column is returned as-is (rows of
one value each); several columns are concatenated per row. -/
def concatColumns : List (List FVal) → List (List FVal)
  | [] => []
  | c :: rest =>
    match rest with
    | [] => c.map fun v => [v]
    | _ => (c.zip (concatColumns rest)).map fun p => p.1 :: p.2

/-- Model of `MultiCategoryEncoding.call(inputs)` on a batch of rows of
strings: split into single-column slices, encode each column through its
layer, and concatenate the outputs row-wise. Any failing op makes the
whole call raise, modelled as `none`. -/
def MultiCategoryEncoding.call (layer : MultiCategoryEncoding)
    (inputs : List (List String)) : Option (List (List FVal)) :=
  (tfSplitColumns inputs layer.encoding.length).bind fun split_inputs =>
    ((split_inputs.zip layer.encoding_layers).mapM fun p =>
        encodeColumn p.2 p.1).bind
      fun output_nodes => some (concatColumns output_nodes)

/-- The external tokenizer capability required by
`TextVectorizationWithTokenizer`: `tokenize` and (per-token)
`convert_tokens_to_ids`. -/
structure Tokenizer where
  tokenize : String → List String
  tokenToId : String → Nat

/-- `tokenizer.convert_tokens_to_ids(tokens)`: per-token id conversion
mapped over a token list. -/
def Tokenizer.convert_tokens_to_ids (tk : Tokenizer) (tokens : List String) :
    List Nat :=
  tokens.map tk.tokenToId

/-- Python slice `l[0:stop]` with a possibly negative `stop`, as used by
`tokens[0 : self.max_seq_len - 1]`. -/
def pySliceTo (l : List α) (stop : Int) : List α :=
  if 0 ≤ stop then l.take stop.toNat
  else l.take (l.length - stop.natAbs)

/-- `TextVectorizationWithTokenizer.encode_sentence(s)`: tokenize,
append `"[SEP]"`, right-pad with `"[UNK]"` to `max_seq_len - 1` tokens
when shorter, else truncate to the first `max_seq_len - 1` tokens, then
convert tokens to ids. Length arithmetic is over Python integers,
modelled in `Int`. -/
def TextVectorizationWithTokenizer.encode_sentence (tk : Tokenizer)
    (max_seq_len : Nat) (s : String) : List Nat :=
  let tokens := tk.tokenize s ++ ["[SEP]"]
  let tokens :=
    if (tokens.length : Int) < (max_seq_len : Int) - 1 then
      tokens ++
        List.replicate ((max_seq_len : Int) - (tokens.length : Int) - 1).toNat
          "[UNK]"
    else
      pySliceTo tokens ((max_seq_len : Int) - 1)
  tk.convert_tokens_to_ids tokens

/-- `TextVectorizationWithTokenizer.get_encoded_sentence(input_tensor)`:
encode the sentence `s[0]` of every row of the `(batch, 1)` string
tensor. -/
def TextVectorizationWithTokenizer.get_encoded_sentence (tk : Tokenizer)
    (max_seq_len : Nat) (input_tensor : List (List String)) :
    List (List Nat) :=
  input_tensor.map fun s =>
    TextVectorizationWithTokenizer.encode_sentence tk max_seq_len (s.headD "")

/-- `TextVectorizationWithTokenizer.bert_encode(input_tensor)`: prepend
the `"[CLS]"` id row-wise to the encoded sentences, build an all-ones
attention mask of the same shape (`tf.ones_like`) and all-zero segment
ids (`tf.zeros_like` on both parts, concatenated), and stack the three
tensors. -/
def TextVectorizationWithTokenizer.bert_encode (tk : Tokenizer)
    (max_seq_len : Nat) (input_tensor : List (List String)) :
    List (List Nat) × List (List Nat) × List (List Nat) :=
  let sentence :=
    TextVectorizationWithTokenizer.get_encoded_sentence tk max_seq_len
      input_tensor
  let cls := sentence.map fun _ => tk.convert_tokens_to_ids ["[CLS]"]
  let input_word_ids := (cls.zip sentence).map fun p => p.1 ++ p.2
  let input_mask := input_word_ids.map fun row => row.map fun _ => 1
  let type_cls := cls.map fun row => row.map fun _ => 0
  let type_s1 := sentence.map fun row => row.map fun _ => 0
  let input_type_ids := (type_cls.zip type_s1).map fun p => p.1 ++ p.2
  (input_word_ids, input_mask, input_type_ids)

/-- Element types of symbolic Keras inputs used by the nodes. -/
inductive DType where
  | float32
  | string
deriving DecidableEq, Repr

/-- A symbolic `tf.keras.Input`: the per-sample shape (entries may be
`none`, i.e. Python `None`, an unresolved dimension — Keras accepts
these) and the element dtype. -/
structure KerasInput where
  shape : List (Option Nat)
  dtype : DType
deriving DecidableEq, Repr

/-- The base `Input` node for tensor data: only the resolved `shape`
configuration is relevant to `build`. -/
structure Input where
  shape : List (Option Nat)
deriving DecidableEq, Repr

/-- `Input.build()`: `tf.keras.Input(shape=self.shape, dtype=tf.float32)`.
The node state is returned unchanged alongside the symbolic input. -/
def Input.build (node : Input) : Input × KerasInput :=
  (node, KerasInput.mk node.shape DType.float32)

/-- The `TextInput` node; `build` only uses its `shape`. -/
structure TextInput where
  shape : List (Option Nat)
deriving DecidableEq, Repr

/-- `TextInput.build()`: `tf.keras.Input(shape=self.shape,
dtype=tf.string)`. -/
def TextInput.build (node : TextInput) : TextInput × KerasInput :=
  (node, KerasInput.mk node.shape DType.string)

/-- The `StructuredDataInput` node: column configuration plus the
resolved `shape`. Column types are name-to-kind pairs. -/
structure StructuredDataInput where
  column_names : Option (List String)
  column_types : Option (List (String × String))
  shape : List (Option Nat)
deriving DecidableEq, Repr

/-- `StructuredDataInput.build()`: `tf.keras.Input(shape=self.shape,
dtype=tf.string)`. -/
def StructuredDataInput.build (node : StructuredDataInput) :
    StructuredDataInput × KerasInput :=
  (node, KerasInput.mk node.shape DType.string)

/-- The `TimeseriesInput` node: `lookback` (Python `None` when
unresolved), column configuration, and the resolved `shape`. -/
structure TimeseriesInput where
  lookback : Option Nat
  column_names : Option (List String)
  column_types : Option (List (String × String))
  shape : List (Option Nat)
deriving DecidableEq, Repr

/-- `TimeseriesInput.build()`: when `self.shape` has exactly one
dimension it is reassigned to `(self.lookback, self.shape[0])` — a
mutation of the node — and then `tf.keras.Input(shape=self.shape,
dtype=tf.float32)` is returned. An unresolved `lookback` flows into the
shape as `None`; no error is raised. -/
def TimeseriesInput.build (node : TimeseriesInput) :
    TimeseriesInput × KerasInput :=
  let node :=
    if node.shape.length = 1 then
      TimeseriesInput.mk node.lookback node.column_names node.column_types
        [node.lookback, node.shape.headD none]
    else node
  (node, KerasInput.mk node.shape DType.float32)

/-- A concrete tokenizer fixture for witnesses: tokenizes the sample
sentence `"hi there"` into `["hi", "there"]`, the empty sentence into
`[]`, and any other sentence into a single token; token ids follow the
BERT conventions documented in `encode_sentence` (`[UNK]` 100, `[CLS]`
101, `[SEP]` 102). -/
def demoTokenizer : Tokenizer :=
  Tokenizer.mk
    (fun s =>
      if s = "hi there" then ["hi", "there"]
      else if s = "" then []
      else [s])
    (fun t =>
      if t = "[UNK]" then 100
      else if t = "[CLS]" then 101
      else if t = "[SEP]" then 102
      else if t = "hi" then 7
      else if t = "there" then 8
      else 0)

/-! ## Helper lemmas -/

theorem listMapConst (l : List α) (c : β) :
    l.map (fun _ => c) = List.replicate l.length c := by
  induction l with
  | nil => rfl
  | cons a t ih => simp [List.replicate_succ, ih]

theorem MultiCategoryEncoding.init_encoding (encoding : List String) :
    (MultiCategoryEncoding.init encoding).encoding = encoding := rfl

theorem MultiCategoryEncoding.init_layers (encoding : List String) :
    (MultiCategoryEncoding.init encoding).encoding_layers =
      initEncodingLayers encoding := rfl

theorem initEncodingLayers_cons (e : String) (es : List String) :
    initEncodingLayers (e :: es) =
      if e = NONE then none :: initEncodingLayers es
      else if e = INT then some (StringLookup.mk []) :: initEncodingLayers es
      else if e = ONE_HOT then none :: initEncodingLayers es
      else initEncodingLayers es := rfl

theorem oneHotNeNone : ONE_HOT ≠ NONE := by decide

theorem oneHotNeInt : ONE_HOT ≠ INT := by decide

/-- Replacing every `one-hot` tag by `none` leaves the constructed
encoding-layer list unchanged: `__init__` appends `None` for both. -/
theorem initEncodingLayersOnehot (encoding : List String) :
    initEncodingLayers (encoding.map fun e => if e = ONE_HOT then NONE else e) =
      initEncodingLayers encoding := by
  induction encoding with
  | nil => rfl
  | cons e es ih =>
    by_cases h : e = ONE_HOT
    · subst h
      rw [List.map_cons, if_pos rfl, initEncodingLayers_cons, if_pos rfl, ih,
        initEncodingLayers_cons, if_neg oneHotNeNone, if_neg oneHotNeInt,
        if_pos rfl]
    · rw [List.map_cons, if_neg h, initEncodingLayers_cons,
        initEncodingLayers_cons, ih]

/-- Length invariant of `encode_sentence`: both the padding branch and
the truncation branch yield exactly `max_seq_len - 1` tokens. -/
theorem encodeSentenceLength (tk : Tokenizer) (L : Nat) (s : String)
    (h : 1 ≤ L) :
    (TextVectorizationWithTokenizer.encode_sentence tk L s).length = L - 1 := by
  simp only [TextVectorizationWithTokenizer.encode_sentence,
    Tokenizer.convert_tokens_to_ids, pySliceTo, List.length_map]
  split
  · rename_i c
    simp only [List.length_append, List.length_replicate, List.length_cons,
      List.length_nil] at c ⊢
    omega
  · rename_i c
    have h0 : (0 : Int) ≤ (L : Int) - 1 := by omega
    rw [if_pos h0]
    simp only [List.length_take, List.length_append, List.length_cons,
      List.length_nil] at c ⊢
    omega

theorem clsRowLength (tk : Tokenizer) (L : Nat) (s : String) (h : 1 ≤ L) :
    (tk.tokenToId "[CLS]" ::
      TextVectorizationWithTokenizer.encode_sentence tk L s).length = L := by
  simp only [List.length_cons, encodeSentenceLength tk L s h]
  omega

/-- The first component of `bert_encode` is the `[CLS]` id prepended to
each row's encoded sentence. -/
theorem bertEncodeWordIds (tk : Tokenizer) (L : Nat)
    (input_tensor : List (List String)) :
    (TextVectorizationWithTokenizer.bert_encode tk L input_tensor).1 =
      input_tensor.map fun s =>
        tk.tokenToId "[CLS]" ::
          TextVectorizationWithTokenizer.encode_sentence tk L (s.headD "") := by
  simp only [TextVectorizationWithTokenizer.bert_encode,
    TextVectorizationWithTokenizer.get_encoded_sentence,
    Tokenizer.convert_tokens_to_ids, List.map_map, List.map_cons,
    List.map_nil, List.zip_map', Function.comp_def, List.singleton_append]

/-! ## Claim theorems -/

/-- C10: for every sentence (the empty sentence included) and every
`max_seq_len ≥ 1`, `encode_sentence` returns exactly `max_seq_len - 1`
token ids, in the padding branch and in the truncation branch alike. -/
theorem C10_encode_sentence_length (tk : Tokenizer) (L : Nat) (s : String)
    (h : 1 ≤ L) :
    (TextVectorizationWithTokenizer.encode_sentence tk L s).length = L - 1 :=
  encodeSentenceLength tk L s h

/-- Witness for C10 at `max_seq_len = 5` and the empty sentence. -/
theorem C10_witness :
    1 ≤ 5 ∧
    (TextVectorizationWithTokenizer.encode_sentence demoTokenizer 5 "").length =
      5 - 1 :=
  ⟨by decide, C10_encode_sentence_length demoTokenizer 5 "" (by decide)⟩

/-- C3: when the tokenization with the separator appended reaches
length `max_seq_len - 1` or more, `encode_sentence` truncates to the
first `max_seq_len - 1` tokens of the separator-appended list; a
sentence of exactly `max_seq_len - 1` real tokens therefore keeps only
its real tokens and loses the separator. -/
theorem C3_truncation (tk : Tokenizer) (L : Nat) (s : String)
    (h1 : 1 ≤ L) (h2 : L - 1 ≤ (tk.tokenize s).length + 1) :
    TextVectorizationWithTokenizer.encode_sentence tk L s =
      tk.convert_tokens_to_ids ((tk.tokenize s ++ ["[SEP]"]).take (L - 1)) ∧
    ((tk.tokenize s).length = L - 1 →
      TextVectorizationWithTokenizer.encode_sentence tk L s =
        tk.convert_tokens_to_ids (tk.tokenize s)) := by
  have hc : ¬ (((tk.tokenize s ++ ["[SEP]"]).length : Int) < (L : Int) - 1) := by
    simp only [List.length_append, List.length_cons, List.length_nil]
    omega
  have h0 : (0 : Int) ≤ (L : Int) - 1 := by omega
  have hmain :
      TextVectorizationWithTokenizer.encode_sentence tk L s =
        tk.convert_tokens_to_ids ((tk.tokenize s ++ ["[SEP]"]).take (L - 1)) := by
    simp only [TextVectorizationWithTokenizer.encode_sentence]
    rw [if_neg hc]
    simp only [pySliceTo]
    rw [if_pos h0]
    congr 1
    congr 1
    omega
  refine ⟨hmain, fun hn => ?_⟩
  rw [hmain, List.take_left' hn]

/-- Witness for C3: with `max_seq_len = 3` the sentence `"hi there"`
tokenizes to exactly `3 - 1 = 2` real tokens, and the encoded result is
the ids of the real tokens only — the separator id 102 is dropped. -/
theorem C3_witness :
    1 ≤ 3 ∧ 3 - 1 ≤ (demoTokenizer.tokenize "hi there").length + 1 ∧
    TextVectorizationWithTokenizer.encode_sentence demoTokenizer 3 "hi there" =
      demoTokenizer.convert_tokens_to_ids (demoTokenizer.tokenize "hi there") ∧
    TextVectorizationWithTokenizer.encode_sentence demoTokenizer 3 "hi there" =
      [7, 8] :=
  ⟨by decide, by decide,
    (C3_truncation demoTokenizer 3 "hi there" (by decide) (by decide)).2
      (by decide),
    by decide⟩

/-- C6: when the tokenization plus the appended separator is shorter
than `max_seq_len - 1`, `encode_sentence` right-pads with `"[UNK]"` to
exactly `max_seq_len - 1` tokens before converting to ids. -/
theorem C6_padding (tk : Tokenizer) (L : Nat) (s : String)
    (h : (tk.tokenize s).length + 1 < L - 1) :
    TextVectorizationWithTokenizer.encode_sentence tk L s =
      tk.convert_tokens_to_ids
        (tk.tokenize s ++ ["[SEP]"] ++
          List.replicate (L - 1 - ((tk.tokenize s).length + 1)) "[UNK]") ∧
    (TextVectorizationWithTokenizer.encode_sentence tk L s).length = L - 1 := by
  have hc : (((tk.tokenize s ++ ["[SEP]"]).length : Int) < (L : Int) - 1) := by
    simp only [List.length_append, List.length_cons, List.length_nil]
    omega
  have hcount :
      ((L : Int) - ((tk.tokenize s ++ ["[SEP]"]).length : Int) - 1).toNat =
        L - 1 - ((tk.tokenize s).length + 1) := by
    simp only [List.length_append, List.length_cons, List.length_nil]
    omega
  refine ⟨?_, encodeSentenceLength tk L s (by omega)⟩
  simp only [TextVectorizationWithTokenizer.encode_sentence]
  rw [if_pos hc, hcount]

/-- Witness for C6 at `max_seq_len = 5` and the sentence `"hi there"`
(tokens `["hi", "there"]`): the padded token list is
`["hi", "there", "[SEP]", "[UNK]"]`, its ids are `[7, 8, 102, 100]`,
and `bert_encode` turns it into the length-5 row
`[101, 7, 8, 102, 100]` after prepending the `[CLS]` id. -/
theorem C6_witness :
    (demoTokenizer.tokenize "hi there").length + 1 < 5 - 1 ∧
    TextVectorizationWithTokenizer.encode_sentence demoTokenizer 5 "hi there" =
      demoTokenizer.convert_tokens_to_ids
        (["hi", "there"] ++ ["[SEP]"] ++ List.replicate 1 "[UNK]") ∧
    TextVectorizationWithTokenizer.encode_sentence demoTokenizer 5 "hi there" =
      [7, 8, 102, 100] ∧
    (TextVectorizationWithTokenizer.bert_encode demoTokenizer 5
        [["hi there"]]).1 = [[101, 7, 8, 102, 100]] :=
  ⟨by decide, (C6_padding demoTokenizer 5 "hi there" (by decide)).1,
    by decide, by decide⟩

/-- C9: for every batch, `bert_encode` prepends the `[CLS]` id to every
encoded sentence giving rows of length `max_seq_len`, returns an
all-ones attention mask of the same `(batch, max_seq_len)` shape (padding
is not masked out), and all-zero segment ids, as the stacked triple
`(input_word_ids, input_mask, input_type_ids)`. -/
theorem C9_bert_encode_shape (tk : Tokenizer) (L : Nat)
    (input_tensor : List (List String)) (h : 1 ≤ L) :
    (TextVectorizationWithTokenizer.bert_encode tk L input_tensor).1 =
      input_tensor.map (fun s =>
        tk.tokenToId "[CLS]" ::
          TextVectorizationWithTokenizer.encode_sentence tk L (s.headD "")) ∧
    (∀ row ∈ (TextVectorizationWithTokenizer.bert_encode tk L input_tensor).1,
      row.length = L) ∧
    (TextVectorizationWithTokenizer.bert_encode tk L input_tensor).2.1 =
      List.replicate input_tensor.length (List.replicate L 1) ∧
    (TextVectorizationWithTokenizer.bert_encode tk L input_tensor).2.2 =
      List.replicate input_tensor.length (List.replicate L 0) := by
  obtain ⟨n, rfl⟩ : ∃ n, L = n + 1 := ⟨L - 1, by omega⟩
  refine ⟨bertEncodeWordIds tk (n + 1) input_tensor, ?_, ?_, ?_⟩
  · rw [bertEncodeWordIds]
    intro row hrow
    rcases List.mem_map.1 hrow with ⟨s, hs, rfl⟩
    exact clsRowLength tk (n + 1) (s.headD "") (by omega)
  · have hm :
        (TextVectorizationWithTokenizer.bert_encode tk (n + 1)
            input_tensor).2.1 =
          input_tensor.map (fun s =>
            ((tk.tokenToId "[CLS]" ::
              TextVectorizationWithTokenizer.encode_sentence tk (n + 1)
                (s.headD "")).map fun _ => (1 : Nat))) := by
      show ((TextVectorizationWithTokenizer.bert_encode tk (n + 1)
          input_tensor).1.map fun row => row.map fun _ => (1 : Nat)) = _
      rw [bertEncodeWordIds, List.map_map]
      rfl
    have hrows : ∀ s ∈ input_tensor,
        ((tk.tokenToId "[CLS]" ::
          TextVectorizationWithTokenizer.encode_sentence tk (n + 1)
            (s.headD "")).map fun _ => (1 : Nat)) =
          List.replicate (n + 1) 1 := by
      intro s _
      rw [listMapConst, clsRowLength tk (n + 1) (s.headD "") (by omega)]
    rw [hm, List.map_congr_left hrows, listMapConst]
  · have ht :
        (TextVectorizationWithTokenizer.bert_encode tk (n + 1)
            input_tensor).2.2 =
          input_tensor.map (fun s =>
            (0 : Nat) ::
              (TextVectorizationWithTokenizer.encode_sentence tk (n + 1)
                (s.headD "")).map fun _ => (0 : Nat)) := by
      simp only [TextVectorizationWithTokenizer.bert_encode,
        TextVectorizationWithTokenizer.get_encoded_sentence,
        Tokenizer.convert_tokens_to_ids, List.map_map, List.map_cons,
        List.map_nil, List.zip_map', Function.comp_def, List.singleton_append]
    have hrows : ∀ s ∈ input_tensor,
        ((0 : Nat) ::
          (TextVectorizationWithTokenizer.encode_sentence tk (n + 1)
            (s.headD "")).map fun _ => (0 : Nat)) =
          List.replicate (n + 1) 0 := by
      intro s _
      rw [listMapConst, encodeSentenceLength tk (n + 1) (s.headD "") (by omega)]
      simp [List.replicate_succ]
    rw [ht, List.map_congr_left hrows, listMapConst]

/-- Witness for C9 on a one-sentence batch with `max_seq_len = 5`. -/
theorem C9_witness :
    1 ≤ 5 ∧
    (TextVectorizationWithTokenizer.bert_encode demoTokenizer 5
        [["hi there"]]).2.1 = List.replicate 1 (List.replicate 5 1) ∧
    (TextVectorizationWithTokenizer.bert_encode demoTokenizer 5
        [["hi there"]]).2.2 = List.replicate 1 (List.replicate 5 0) :=
  ⟨by decide,
    (C9_bert_encode_shape demoTokenizer 5 [["hi there"]] (by decide)).2.2.1,
    (C9_bert_encode_shape demoTokenizer 5 [["hi there"]] (by decide)).2.2.2⟩

/-- C7: for every `TimeseriesInput` with resolved `lookback` and a
one-dimensional configured shape (feature count only), `build()`
constructs the symbolic input with shape `(lookback, feature_count)`;
in particular `lookback = 10` and shape `(7,)` yield shape `(10, 7)`. -/
theorem C7_lookback_shape (lb f : Nat) (cn : Option (List String))
    (ct : Option (List (String × String))) :
    TimeseriesInput.build (TimeseriesInput.mk (some lb) cn ct [some f]) =
      (TimeseriesInput.mk (some lb) cn ct [some lb, some f],
        KerasInput.mk [some lb, some f] DType.float32) ∧
    TimeseriesInput.build (TimeseriesInput.mk (some 10) none none [some 7]) =
      (TimeseriesInput.mk (some 10) none none [some 10, some 7],
        KerasInput.mk [some 10, some 7] DType.float32) :=
  ⟨rfl, rfl⟩

/-- C4 counterexample: with unresolved `lookback` (`None`) and a
one-dimensional shape, `build()` does not fail — it returns a symbolic
input whose first dimension is the unresolved `None`. -/
theorem C4_counterexample :
    TimeseriesInput.build (TimeseriesInput.mk none none none [some 7]) =
      (TimeseriesInput.mk none none none [none, some 7],
        KerasInput.mk [none, some 7] DType.float32) ∧
    (TimeseriesInput.build
        (TimeseriesInput.mk none none none [some 7])).2.shape.headD
      (some 0) = none :=
  ⟨rfl, rfl⟩

/-- C4 amended: `TimeseriesInput.build()` with unresolved `lookback` on
a one-dimensional shape raises no error; it silently constructs an
input of shape `(None, feature_count)`, the unresolved `lookback`
flowing into the shape as an unresolved dimension. -/
theorem C4_unresolved_lookback_builds (cn : Option (List String))
    (ct : Option (List (String × String))) (f : Nat) :
    TimeseriesInput.build (TimeseriesInput.mk none cn ct [some f]) =
      (TimeseriesInput.mk none cn ct [none, some f],
        KerasInput.mk [none, some f] DType.float32) :=
  rfl

/-- C5 counterexample: `TimeseriesInput.build()` mutates the node
during the build phase — after `build()` on a node configured with the
one-dimensional shape `(7,)` and `lookback = 10`, the node's `shape`
field has changed to `(10, 7)`. -/
theorem C5_counterexample :
    (TimeseriesInput.build
        (TimeseriesInput.mk (some 10) none none [some 7])).1.shape =
      [some 10, some 7] ∧
    (TimeseriesInput.build
        (TimeseriesInput.mk (some 10) none none [some 7])).1 ≠
      TimeseriesInput.mk (some 10) none none [some 7] := by
  constructor
  · rfl
  · decide

/-- C5 amended: `build()` leaves the node configuration unchanged for
`Input`, `TextInput` and `StructuredDataInput`, and for
`TimeseriesInput` whenever its configured shape is not one-dimensional;
the only build-phase mutation is `TimeseriesInput.build()` rewriting a
one-dimensional shape to `(lookback, feature_count)`. -/
theorem C5_build_mutation (i : Input) (t : TextInput)
    (sd : StructuredDataInput) (ts : TimeseriesInput)
    (h : ts.shape.length ≠ 1) :
    (Input.build i).1 = i ∧ (TextInput.build t).1 = t ∧
    (StructuredDataInput.build sd).1 = sd ∧
    (TimeseriesInput.build ts).1 = ts := by
  refine ⟨rfl, rfl, rfl, ?_⟩
  simp only [TimeseriesInput.build, if_neg h]

/-- Witness for C5 at concrete nodes, the timeseries one already
two-dimensional. -/
theorem C5_witness :
    (Input.build (Input.mk [some 3])).1 = Input.mk [some 3] ∧
    (TextInput.build (TextInput.mk [none])).1 = TextInput.mk [none] ∧
    (StructuredDataInput.build
        (StructuredDataInput.mk none none [some 4])).1 =
      StructuredDataInput.mk none none [some 4] ∧
    (TimeseriesInput.build
        (TimeseriesInput.mk (some 10) none none [some 10, some 7])).1 =
      TimeseriesInput.mk (some 10) none none [some 10, some 7] :=
  C5_build_mutation (Input.mk [some 3]) (TextInput.mk [none])
    (StructuredDataInput.mk none none [some 4])
    (TimeseriesInput.mk (some 10) none none [some 10, some 7]) (by decide)

/-- C1 counterexample: constructing `MultiCategoryEncoding` with the
tag `"one-hot"` raises no error — the column gets a `None` encoding
layer, and the transform silently treats the column as a numeric
(`"none"`) column, parsing `"1.5"` to the number `1.5`. -/
theorem C1_counterexample :
    MultiCategoryEncoding.call (MultiCategoryEncoding.init ["one-hot"])
        [["1.5"]] = some [[FVal.num (mkRat 3 2)]] ∧
    (MultiCategoryEncoding.init ["one-hot"]).encoding_layers = [none] ∧
    MultiCategoryEncoding.call (MultiCategoryEncoding.init ["one-hot"])
        [["1.5"]] =
      MultiCategoryEncoding.call (MultiCategoryEncoding.init ["none"])
        [["1.5"]] := by
  refine ⟨by decide, rfl, by decide⟩

/-- C1 amended: a `"one-hot"` tag is accepted without any error and the
column silently degrades to the `"none"` behaviour — replacing every
`one-hot` tag by `none` leaves the transform's behaviour unchanged on
every input. -/
theorem C1_one_hot_degrades (encoding : List String)
    (inputs : List (List String)) :
    MultiCategoryEncoding.call
        (MultiCategoryEncoding.init
          (encoding.map fun e => if e = ONE_HOT then NONE else e)) inputs =
      MultiCategoryEncoding.call (MultiCategoryEncoding.init encoding)
        inputs := by
  simp only [MultiCategoryEncoding.call, MultiCategoryEncoding.init_encoding,
    MultiCategoryEncoding.init_layers, initEncodingLayersOnehot,
    List.length_map]

/-- Splitting a single-column batch into `[1]` slices recovers the
column. -/
theorem tfSplitSingleton (col : List String) :
    tfSplitColumns (col.map fun s => [s]) 1 = some [col] := by
  have hall : ((col.map fun s => [s]).all fun r => r.length == 1) = true := by
    simp [List.all_eq_true]
  simp only [tfSplitColumns, if_pos hall]
  congr 1
  show [(col.map fun s => [s]).map fun r => r.getD 0 ""] = [col]
  congr 1
  rw [List.map_map]
  simp [Function.comp_def]

/-- C2 counterexample: on the `"none"`-encoded column
`["1.5", "NaN", "abc"]` the transform does not yield `[1.5, 0.0, 0.0]`
— `tf.strings.to_number` fails on the malformed string `"abc"`, so the
whole call raises. -/
theorem C2_counterexample :
    MultiCategoryEncoding.call (MultiCategoryEncoding.init [NONE])
        [["1.5"], ["NaN"], ["abc"]] = none ∧
    MultiCategoryEncoding.call (MultiCategoryEncoding.init [NONE])
        [["1.5"], ["NaN"], ["abc"]] ≠
      some [[FVal.num (mkRat 3 2)], [FVal.num 0], [FVal.num 0]] := by
  refine ⟨by decide, by decide⟩

/-- C2 amended: on a `"none"` column whose values all parse as
floating-point numbers, the transform succeeds and replaces NaN values
by 0.0; a malformed value makes the whole call raise (shown by the
counterexample), it is not imputed. -/
theorem C2_none_column_imputes (col : List String) (vs : List FVal)
    (h : col.mapM toNumber = some vs) :
    MultiCategoryEncoding.call (MultiCategoryEncoding.init [NONE])
        (col.map fun s => [s]) =
      some ((vs.map impute).map fun v => [v]) := by
  simp only [MultiCategoryEncoding.call, MultiCategoryEncoding.init_encoding,
    MultiCategoryEncoding.init_layers, List.length_singleton,
    tfSplitSingleton col, Option.some_bind]
  have hlayers : initEncodingLayers [NONE] = [none] := rfl
  rw [hlayers]
  simp only [List.zip_cons_cons, List.zip_nil_right, List.mapM_cons,
    List.mapM_nil, encodeColumn, h, Option.map_some]
  rfl

/-- Witness for C2 on the well-formed column `["1.5", "NaN"]`: the NaN
value is imputed to 0.0 and the numeric value kept. -/
theorem C2_witness :
    ["1.5", "NaN"].mapM toNumber = some [FVal.num (mkRat 3 2), FVal.nan] ∧
    MultiCategoryEncoding.call (MultiCategoryEncoding.init [NONE])
        (["1.5", "NaN"].map fun s => [s]) =
      some (([FVal.num (mkRat 3 2), FVal.nan].map impute).map fun v => [v]) ∧
    MultiCategoryEncoding.call (MultiCategoryEncoding.init [NONE])
        [["1.5"], ["NaN"]] = some [[FVal.num (mkRat 3 2)], [FVal.num 0]] :=
  ⟨by decide,
    C2_none_column_imputes ["1.5", "NaN"] [FVal.num (mkRat 3 2), FVal.nan]
      (by decide),
    by decide⟩

/-- C8: a transform call whose input column count differs from the
encoding-tag count fails (the split op raises), and under the
equal-count precondition the split never fails. -/
theorem C8_tag_count (encoding : List String) (inputs : List (List String)) :
    ((∃ r ∈ inputs, r.length ≠ encoding.length) →
      MultiCategoryEncoding.call (MultiCategoryEncoding.init encoding)
        inputs = none) ∧
    ((∀ r ∈ inputs, r.length = encoding.length) →
      (tfSplitColumns inputs encoding.length).isSome = true) := by
  constructor
  · rintro ⟨r, hr, hlen⟩
    have hall : ¬ ((inputs.all fun x => x.length == encoding.length) = true) := by
      simp only [List.all_eq_true, beq_iff_eq]
      intro hforall
      exact hlen (hforall r hr)
    simp only [MultiCategoryEncoding.call, MultiCategoryEncoding.init_encoding,
      tfSplitColumns, if_neg hall, Option.none_bind]
  · intro hforall
    have hall : (inputs.all fun x => x.length == encoding.length) = true := by
      simp only [List.all_eq_true, beq_iff_eq]
      exact hforall
    simp only [tfSplitColumns, if_pos hall, Option.isSome_some]

/-- Witness for C8: three columns with two tags raise; two columns with
two tags split fine. -/
theorem C8_witness :
    MultiCategoryEncoding.call (MultiCategoryEncoding.init ["none", "none"])
        [["1", "2", "3"]] = none ∧
    (tfSplitColumns [["a", "b"]] (["none", "none"] : List String).length).isSome =
      true :=
  ⟨(C8_tag_count ["none", "none"] [["1", "2", "3"]]).1
      ⟨["1", "2", "3"], by decide, by decide⟩,
    (C8_tag_count ["none", "none"] [["a", "b"]]).2 (by decide)⟩
